import Mathlib

/-!
Shallow embedding of the fitnesspass repository's AI tool layer
(src/lib/ai/tools.ts), profile server actions (src/lib/actions/profile.ts)
and security-header configuration (src/next.config.ts).

Conventions of the embedding:
* JavaScript `undefined`/`null` is `Option.none`; a JS value of type
  `T | null | undefined` becomes `Option T`.
* JS numbers that the code only compares and forwards are modelled as `Rat`
  (for profile lat/lng/radius) or `Int` (for durations and capacities); the
  code performs no float-specific arithmetic on them.  `Number.isFinite`
  holds for every `Rat`/`Int`, so that check is the constant `true` here.
* Calls to the external content store (`client.fetch`) are modelled by
  passing the list of documents that the store would return for the
  query's filter and ordering as an explicit argument; the result-window
  slice `[0...n]` written in this repository's query text is applied here
  as `List.take n`, since that bound is repository logic.  Reimplementing
  the store's own filter/order engine is out of scope (spec §1, §2).
* Fallible external operations are `Except Unit α`; a thrown exception is
  `Except.error ()`.  Writes performed against external systems are
  returned as an explicit `WriteEvent` trace so that "performs no write"
  is the statement that the trace is empty.
-/

/-! ## String helpers (JS `String.prototype.includes` on lowered strings) -/

/-- Boolean test that the first character list starts with the second
character list's content, i.e. `t` leads `s`. -/
def charsLead : List Char → List Char → Bool
  | [], _ => true
  | _ :: _, [] => false
  | a :: as, b :: bs => a == b && charsLead as bs

/-- Boolean test that `t` occurs as a contiguous segment of the second
character list. -/
def charsSegment (t : List Char) : List Char → Bool
  | [] => charsLead t []
  | b :: bs => charsLead t (b :: bs) || charsSegment t bs

/-- JS `s.includes(sub)`: `sub` occurs as a contiguous substring of `s`. -/
def strContains (s sub : String) : Bool :=
  charsSegment sub.data s.data

/-- JS truthiness of a `string | undefined` value: `undefined` and the empty
string are falsy. -/
def strTruthy : Option String → Bool
  | some s => !s.isEmpty
  | none => false

/-- JS `s.toLowerCase()`, character-wise lowering of the string's
characters (the code only compares ASCII category and search terms). -/
def strToLower (s : String) : String :=
  String.mk (s.data.map Char.toLower)

/-- JS `s.trim()`: the string without leading and trailing whitespace. -/
def strTrim (s : String) : String :=
  String.mk
    (((s.data.dropWhile Char.isWhitespace).reverse.dropWhile
        Char.isWhitespace).reverse)

/-! ## Data model of fetched documents (src/lib/ai/tools.ts) -/

/-- Projection `category->{name}` used by searchClasses/getRecommendations.
The tools' own TS annotations type `name` as `string`. -/
structure CategoryRef where
  name : String
deriving Repr, DecidableEq

/-- Activity document as projected by the searchClasses and
getRecommendations queries: `{_id, name, instructor, duration, tierLevel,
category->{name}}`.  `hasUpcomingScheduledSession` records the value of the
store-evaluated subquery
`count(*[_type == "classSession" && activity._ref == ^._id &&
startTime > now() && status == "scheduled"]) > 0`. -/
structure Activity where
  id : String
  name : String
  instructor : Option String
  duration : Option Int
  tierLevel : Option String
  category : Option CategoryRef
  hasUpcomingScheduledSession : Bool
deriving Repr, DecidableEq

/-- Subscription tier levels of the zod enum
`z.enum(["basic", "performance", "champion"])`. -/
inductive Tier
  | basic
  | performance
  | champion
deriving Repr, DecidableEq

/-- String form of a tier, as sent in query filters. -/
def tierToString : Tier → String
  | Tier.basic => "basic"
  | Tier.performance => "performance"
  | Tier.champion => "champion"

/-! ## Tool: searchClasses -/

/-- Response shape of the searchClasses tool. -/
structure SearchClassesResponse where
  count : Nat
  classes : List Activity
deriving Repr, DecidableEq

/-- Embedding of searchClasses.execute (src/lib/ai/tools.ts lines 48-83).
`matching` is the list of activity documents satisfying the server-side
GROQ filter, in `order(name asc)` order, as returned by the store; the
query's result window `[0...10]` and the client-side category filter
`a.category?.name?.toLowerCase().includes(category.toLowerCase())` are
applied here.  `query`, `instructor` and `tierLevel` only contribute to the
server-side filter string and so are absorbed by `matching`. -/
def searchClasses (category : Option String) (matching : List Activity) :
    SearchClassesResponse :=
  let activities := matching.take 10
  let filtered :=
    match category with
    | some c =>
        if c.isEmpty then activities
        else
          activities.filter (fun a =>
            match a.category with
            | some cat => strContains (strToLower cat.name) (strToLower c)
            | none => false)
    | none => activities
  { count := filtered.length, classes := filtered }

/-! ## Tool: getClassSessions -/

/-- Nested `activity->{name, instructor, duration, tierLevel}` projection of
the sessions query (type SessionFromQuery in the source). -/
structure SessionActivity where
  name : Option String
  instructor : Option String
  duration : Option Int
  tierLevel : Option String
deriving Repr, DecidableEq

/-- Nested `venue->{name, "city": address.city}` projection. -/
structure SessionVenue where
  name : Option String
  city : Option String
deriving Repr, DecidableEq

/-- Session document as returned by the getClassSessions query (TS type
SessionFromQuery).  `currentBookings` is the store-computed count of
confirmed bookings for the session. -/
structure SessionFromQuery where
  id : String
  startTime : Option String
  maxCapacity : Option Int
  currentBookings : Option Int
  activity : Option SessionActivity
  venue : Option SessionVenue
deriving Repr, DecidableEq

/-- Helper asStringOrNull (source lines 19-21): keep a string only when its
trimmed length is positive. -/
def asStringOrNull (v : Option String) : Option String :=
  match v with
  | some s => if (strTrim s).length > 0 then some s else none
  | none => none

/-- Helper asNumberOrNull (source lines 23-25): keep finite numbers.  Every
`Int` is finite, so this is the identity on the embedded numbers. -/
def asNumberOrNull (v : Option Int) : Option Int :=
  v

/-- Shaped session item produced by getClassSessions. -/
structure SessionItem where
  id : String
  startTime : Option String
  spotsAvailable : Int
  activity : Option SessionActivity
  venue : Option SessionVenue
deriving Repr, DecidableEq

/-- Response shape of the getClassSessions tool. -/
structure SessionsResponse where
  count : Nat
  sessions : List SessionItem
deriving Repr, DecidableEq

/-- Shaping of one fetched session (source lines 132-155): null capacity
and booking counts default to 0, and spotsAvailable is
`Math.max(0, maxCapacity - currentBookings)`. -/
def shapeSession (s : SessionFromQuery) : SessionItem :=
  let maxCapacity := s.maxCapacity.getD 0
  let currentBookings := s.currentBookings.getD 0
  { id := s.id
    startTime := asStringOrNull s.startTime
    spotsAvailable := max 0 (maxCapacity - currentBookings)
    activity := s.activity.map (fun a =>
      { name := asStringOrNull a.name
        instructor := asStringOrNull a.instructor
        duration := asNumberOrNull a.duration
        tierLevel := asStringOrNull a.tierLevel })
    venue := s.venue.map (fun v =>
      { name := asStringOrNull v.name
        city := asStringOrNull v.city }) }

/-- Embedding of getClassSessions.execute (source lines 111-157).
`matching` is the list of session documents satisfying the server-side
filter (class-name pattern, future start, scheduled status) in
`order(startTime asc)` order; the query's `[0...10]` window is applied
here.  The `className` input only feeds the server-side pattern and is
absorbed by `matching`. -/
def getClassSessions (matching : List SessionFromQuery) : SessionsResponse :=
  let sessions := matching.take 10
  { count := sessions.length
    sessions := sessions.map shapeSession }

/-! ## Tool: searchVenues -/

/-- Venue document as projected by `{_id, name, description, address,
amenities}`; the address object is kept as its city component, the only
part the surrounding code inspects. -/
structure Venue where
  id : String
  name : Option String
  description : Option String
  city : Option String
  amenities : List String
deriving Repr, DecidableEq

/-- Response shape of the searchVenues tool. -/
structure VenuesResponse where
  count : Nat
  venues : List Venue
deriving Repr, DecidableEq

/-- Modelled from the spec: the query text of AI_SEARCH_VENUES_QUERY
(imported from sanity/lib/queries/ai, not present under src/) is modelled,
per spec §4(e) ("a bounded list (top 5-20 items)"), as returning at most 20
venues from the store. -/
def aiSearchVenuesFetch (store : List Venue) : List Venue :=
  store.take 20

/-- Embedding of searchVenues.execute (source lines 170-197).  When both
`name` and `city` are JS-falsy the tool fetches AI_SEARCH_VENUES_QUERY over
`allStore`; otherwise it runs the dynamically filtered query, whose
matching documents in `order(name asc)` order are `matchingStore`, with the
repository-authored window `[0...10]` applied here. -/
def searchVenues (name city : Option String) (allStore matchingStore : List Venue) :
    VenuesResponse :=
  if !strTruthy name && !strTruthy city then
    let venues := aiSearchVenuesFetch allStore
    { count := venues.length, venues := venues }
  else
    let venues := matchingStore.take 10
    { count := venues.length, venues := venues }

/-! ## Tool: getCategories -/

/-- Category document returned by the categories query. -/
structure Category where
  id : String
  name : String
deriving Repr, DecidableEq

/-- Response shape of the getCategories tool. -/
structure CategoriesResponse where
  count : Nat
  categories : List Category
deriving Repr, DecidableEq

/-- Modelled from the spec: the query text of AI_CATEGORIES_QUERY (imported
from sanity/lib/queries/ai, not present under src/) is modelled, per spec
§4(e) ("a bounded list (top 5-20 items)"), as returning at most 20
categories from the store. -/
def aiCategoriesFetch (store : List Category) : List Category :=
  store.take 20

/-- Embedding of getCategories.execute (source lines 207-210). -/
def getCategories (store : List Category) : CategoriesResponse :=
  let categories := aiCategoriesFetch store
  { count := categories.length, categories := categories }

/-! ## Tool: getSubscriptionInfo -/

/-- JSON values, used to render the literal object returned by
getSubscriptionInfo exactly as the source writes it, field names included. -/
inductive JsonVal
  | s (v : String)
  | n (v : Int)
  | arr (vs : List JsonVal)
  | obj (fields : List (String × JsonVal))

/-- Field lookup in a JSON object; `none` on non-objects and absent keys. -/
def jsonField (j : JsonVal) (key : String) : Option JsonVal :=
  match j with
  | JsonVal.obj fields =>
      match fields.find? (fun f => f.1 == key) with
      | some f => some f.2
      | none => none
  | _ => none

/-- The three tier objects of the literal returned by
getSubscriptionInfo.execute (source lines 222-247). -/
def subscriptionTiers : List JsonVal :=
  [JsonVal.obj
      [("name", JsonVal.s "Basic"),
       ("monthlyPrice", JsonVal.n 29),
       ("annualPrice", JsonVal.n 290),
       ("classesPerMonth", JsonVal.n 5),
       ("classAccess", JsonVal.s "Basic-tier classes only"),
       ("perClassCost", JsonVal.s "$5.80")],
   JsonVal.obj
      [("name", JsonVal.s "Performance"),
       ("monthlyPrice", JsonVal.n 59),
       ("annualPrice", JsonVal.n 590),
       ("classesPerMonth", JsonVal.n 12),
       ("classAccess", JsonVal.s "Basic + Performance classes"),
       ("perClassCost", JsonVal.s "$4.92")],
   JsonVal.obj
      [("name", JsonVal.s "Champion"),
       ("monthlyPrice", JsonVal.n 99),
       ("annualPrice", JsonVal.n 990),
       ("classesPerMonth", JsonVal.s "Unlimited"),
       ("classAccess", JsonVal.s "All classes"),
       ("perClassCost", JsonVal.s "Best value for 8+ classes/month")]]

/-- Embedding of getSubscriptionInfo.execute (source lines 220-251): a fixed
response object with fields tiers, freeTrialDays and annualDiscount, and no
other field. -/
def getSubscriptionInfo : JsonVal :=
  JsonVal.obj
    [("tiers", JsonVal.arr subscriptionTiers),
     ("freeTrialDays", JsonVal.n 3),
     ("annualDiscount", JsonVal.s "17%")]

/-! ## Tool: getRecommendations -/

/-- Fitness goals of the zod enum in getRecommendations. -/
inductive FitnessGoal
  | strength
  | flexibility
  | cardio
  | relaxation
  | weightLoss
deriving Repr, DecidableEq

/-- The goalCategories record (source lines 275-281). -/
def goalCategories : FitnessGoal → List String
  | FitnessGoal.strength => ["HIIT", "Strength", "CrossFit"]
  | FitnessGoal.flexibility => ["Yoga", "Pilates", "Stretching"]
  | FitnessGoal.cardio => ["Cycling", "Running", "Dance", "HIIT"]
  | FitnessGoal.relaxation => ["Yoga", "Meditation", "Pilates"]
  | FitnessGoal.weightLoss => ["HIIT", "Cycling", "Boot Camp"]

/-- The tier list interpolated into the filter clause
`tierLevel in [...]` (source lines 286-291). -/
def tierLevels : Tier → List String
  | Tier.champion => ["basic", "performance", "champion"]
  | Tier.performance => ["basic", "performance"]
  | Tier.basic => ["basic"]

/-- Numeric rank of a tier in the order basic < performance < champion. -/
def tierRank : Tier → Nat
  | Tier.basic => 0
  | Tier.performance => 1
  | Tier.champion => 2

/-- Admission of an activity's (nullable) tierLevel field by the clause
`tierLevel in tierLevels userTier`; GROQ membership of `null` in a list of
strings is false. -/
def tierFilterAdmits (userTier : Tier) (activityTier : Option String) : Bool :=
  match activityTier with
  | some s => decide (s ∈ tierLevels userTier)
  | none => false

/-- Admission by the duration clause
`duration <= preferredDuration + 15 && duration >= preferredDuration - 15`;
a null duration fails both comparisons in GROQ. -/
def durationAdmits (preferredDuration : Int) (activityDuration : Option Int) : Bool :=
  match activityDuration with
  | some dur => decide (dur ≤ preferredDuration + 15) && decide (preferredDuration - 15 ≤ dur)
  | none => false

/-- The server-side filter getRecommendations composes (source lines
283-299): the base upcoming-session condition, the tier clause when
`tierLevel` is given, and the duration clause when `preferredDuration` is
JS-truthy (a preferredDuration of 0 is falsy and adds no clause). -/
def recQueryFilter (tierLevel : Option Tier) (preferredDuration : Option Int)
    (a : Activity) : Bool :=
  a.hasUpcomingScheduledSession
    && (match tierLevel with
        | some t => tierFilterAdmits t a.tierLevel
        | none => true)
    && (match preferredDuration with
        | some d => if d == 0 then true else durationAdmits d a.duration
        | none => true)

/-- The list the getRecommendations query fetches: the store's activity
documents that pass the composed filter, with the repository-authored
window `[0...20]` applied.  `store` is the store's activity collection in
`order(name asc)` order. -/
def recFetched (tierLevel : Option Tier) (preferredDuration : Option Int)
    (store : List Activity) : List Activity :=
  (store.filter (recQueryFilter tierLevel preferredDuration)).take 20

/-- Inputs echoed back in the basedOn field. -/
structure BasedOn where
  fitnessGoal : Option FitnessGoal
  preferredDuration : Option Int
  tierLevel : Option Tier
deriving Repr, DecidableEq

/-- Response shape of the getRecommendations tool. -/
structure RecommendationsResponse where
  count : Nat
  recommendations : List Activity
  basedOn : BasedOn
deriving Repr, DecidableEq

/-- The client-side category filter of getRecommendations (source lines
315-321): keep activities whose category name contains one of the goal's
target category names, case-insensitively. -/
def goalFilter (g : FitnessGoal) (activities : List Activity) : List Activity :=
  activities.filter (fun a =>
    match a.category with
    | some cat => (goalCategories g).any (fun c => strContains (strToLower cat.name) (strToLower c))
    | none => false)

/-- Embedding of getRecommendations.execute (source lines 274-330).  When a
fitnessGoal is given (the enum's values are all truthy and goalCategories
covers every key), the fetched activities are filtered by goal category; an
empty filter result falls back to the unfiltered fetch.  The response takes
the top 5 with `count = Math.min(recommended.length, 5)`. -/
def getRecommendations (fitnessGoal : Option FitnessGoal)
    (preferredDuration : Option Int) (tierLevel : Option Tier)
    (store : List Activity) : RecommendationsResponse :=
  let activities := recFetched tierLevel preferredDuration store
  let recommended :=
    match fitnessGoal with
    | some g =>
        let r := goalFilter g activities
        if r.length == 0 then activities else r
    | none => activities
  { count := min recommended.length 5
    recommendations := recommended.take 5
    basedOn :=
      { fitnessGoal := fitnessGoal
        preferredDuration := preferredDuration
        tierLevel := tierLevel } }

/-! ## Tool: getUserBookings -/

/-- Booking status enum of the TS type BookingFromQuery. -/
inductive BookingStatus
  | cancelled
  | confirmed
  | attended
  | noShow
deriving Repr, DecidableEq

/-- Nested activity projection of the bookings queries. -/
structure BookingActivity where
  name : Option String
  instructor : Option String
  duration : Option Int
deriving Repr, DecidableEq

/-- Nested venue projection of the bookings queries. -/
structure BookingVenue where
  name : Option String
  city : Option String
deriving Repr, DecidableEq

/-- Nested classSession projection of the bookings queries. -/
structure BookingSession where
  id : String
  startTime : Option String
  activity : Option BookingActivity
  venue : Option BookingVenue
deriving Repr, DecidableEq

/-- Booking document as returned by the bookings queries (TS type
BookingFromQuery). -/
structure BookingFromQuery where
  id : String
  status : Option BookingStatus
  createdAt : Option String
  attendedAt : Option String
  classSession : Option BookingSession
deriving Repr, DecidableEq

/-- The three booking-filter modes of the tool input. -/
inductive BookingsKind
  | upcoming
  | past
  | all
deriving Repr, DecidableEq

/-- Shaped booking item produced by getUserBookings (source lines 393-405):
every nested access is an optional chain defaulting to null. -/
structure BookingItem where
  id : String
  sessionId : Option String
  status : Option BookingStatus
  bookedAt : Option String
  attendedAt : Option String
  class_ : Option String
  instructor : Option String
  duration : Option Int
  dateTime : Option String
  venue : Option String
  city : Option String
deriving Repr, DecidableEq

/-- Response shape of the getUserBookings tool.  The error branch returns
`{error, count, bookings}` and the success branch `{count, type, bookings}`;
an absent field is `none`. -/
structure BookingsResponse where
  error : Option String
  count : Nat
  type : Option BookingsKind
  bookings : List BookingItem
deriving Repr, DecidableEq

/-- A tool run paired with the list of store queries it issued, so that
"does not query the store" is the statement that `fetches` is empty. -/
structure BookingsRun where
  response : BookingsResponse
  fetches : List BookingsKind
deriving Repr, DecidableEq

/-- Shaping of one fetched booking (source lines 393-405). -/
def shapeBooking (b : BookingFromQuery) : BookingItem :=
  { id := b.id
    sessionId := b.classSession.map (fun s => s.id)
    status := b.status
    bookedAt := b.createdAt
    attendedAt := b.attendedAt
    class_ := b.classSession.bind (fun s => s.activity.bind (fun a => a.name))
    instructor := b.classSession.bind (fun s => s.activity.bind (fun a => a.instructor))
    duration := b.classSession.bind (fun s => s.activity.bind (fun a => a.duration))
    dateTime := b.classSession.bind (fun s => s.startTime)
    venue := b.classSession.bind (fun s => s.venue.bind (fun v => v.name))
    city := b.classSession.bind (fun s => s.venue.bind (fun v => v.city)) }

/-- Modelled from the spec: the query texts of AI_USER_PAST_BOOKINGS_QUERY,
AI_USER_ALL_BOOKINGS_QUERY and AI_USER_UPCOMING_BOOKINGS_QUERY (imported
from sanity/lib/queries/ai, not present under src/) are modelled, per spec
§4(e) ("a bounded list (top 5-20 items)"), as returning at most 20 of the
user's booking documents from the store. -/
def aiUserBookingsFetch (store : BookingsKind → String → List BookingFromQuery)
    (kind : BookingsKind) (clerkId : String) : List BookingFromQuery :=
  (store kind clerkId).take 20

/-- Embedding of getUserBookings.execute (source lines 372-407).  `type`
defaults to upcoming; a JS-falsy clerkId (the empty string, since the zod
schema requires a string) short-circuits to the authentication-error
response without issuing any fetch.  Otherwise the query matching the type
is run and its results shaped. -/
def getUserBookings (type : Option BookingsKind) (clerkId : String)
    (store : BookingsKind → String → List BookingFromQuery) : BookingsRun :=
  let t := type.getD BookingsKind.upcoming
  if clerkId.isEmpty then
    { response :=
        { error := some "User not authenticated"
          count := 0
          type := none
          bookings := [] }
      fetches := [] }
  else
    let bookings := aiUserBookingsFetch store t clerkId
    { response :=
        { error := none
          count := bookings.length
          type := some t
          bookings := bookings.map shapeBooking }
      fetches := [t] }

/-! ## Profile server actions (src/lib/actions/profile.ts) -/

/-- Result type of the profile actions (source lines 12-16). -/
structure ProfileResult where
  success : Bool
  message : Option String
  error : Option String
deriving Repr, DecidableEq

/-- LocationData (source lines 22-26): every field may be absent. -/
structure LocationData where
  lat : Option Rat
  lng : Option Rat
  address : Option String
deriving Repr, DecidableEq

/-- ProfilePreferences (source lines 28-31). -/
structure ProfilePreferences where
  location : Option LocationData
  searchRadius : Option Rat
deriving Repr, DecidableEq

/-- Validator isValidLocation (source lines 34-42): lat and lng must be
numbers and the address a string whose trimmed length is positive. -/
def isValidLocation (location : Option LocationData) : Bool :=
  match location with
  | some l =>
      l.lat.isSome && l.lng.isSome &&
        (match l.address with
         | some a => (strTrim a).length > 0
         | none => false)
  | none => false

/-- Validator isValidRadius (source lines 44-46): a finite number at least
1.  Every `Rat` is finite, so only the bound remains. -/
def isValidRadius (radius : Option Rat) : Bool :=
  match radius with
  | some r => decide (1 ≤ r)
  | none => false

/-- Writes the actions perform against external systems. `ensureProfile`
stands for the getOrCreateUserProfile call (which may create a profile
document), `patchProfile` for the `patch(...).set({location, searchRadius})
.commit()` write with the exact data written, and `setOnboarded` for the
Clerk publicMetadata update. -/
inductive WriteEvent
  | ensureProfile (clerkId : String)
  | patchProfile (profileId : String) (lat lng : Rat) (address : String)
      (searchRadius : Rat)
  | setOnboarded (clerkId : String)
deriving Repr, DecidableEq

/-- Behaviour of the external operations an action may invoke: `auth()`
(which yields an optional userId), getOrCreateUserProfile, the
USER_PROFILE_WITH_PREFERENCES_QUERY fetch (yielding an optional profile
_id), the patch commit and the Clerk metadata update.  `Except.error ()`
models the operation throwing. -/
structure ActionEnv where
  authUserId : Except Unit (Option String)
  getOrCreateProfile : String → Except Unit String
  fetchProfileId : String → Except Unit (Option String)
  patchCommit : Except Unit Unit
  clerkUpdate : Except Unit Unit

/-- Embedding of completeOnboarding (source lines 49-102).  The whole body
runs in a try/catch whose handler returns
`{success: false, error: "Failed to complete onboarding"}`; an absent
userId short-circuits with the Unauthorized result; validation failures
return before any external write; otherwise the profile is ensured, the
patch `{location: {lat, lng, address}, searchRadius}` committed and the
Clerk onboarding flag set.  The returned trace lists the writes that
happened, in order. -/
def completeOnboarding (env : ActionEnv) (preferences : ProfilePreferences) :
    ProfileResult × List WriteEvent :=
  match env.authUserId with
  | Except.error _ =>
      ({ success := false, message := none,
         error := some "Failed to complete onboarding" }, [])
  | Except.ok none =>
      ({ success := false, message := none, error := some "Unauthorized" }, [])
  | Except.ok (some userId) =>
      if isValidLocation preferences.location = false then
        ({ success := false, message := none,
           error := some "Location is required" }, [])
      else if isValidRadius preferences.searchRadius = false then
        ({ success := false, message := none,
           error := some "Search radius is required" }, [])
      else
        let loc := preferences.location.getD
          { lat := none, lng := none, address := none }
        let lat := loc.lat.getD 0
        let lng := loc.lng.getD 0
        let address := loc.address.getD ""
        let searchRadius := preferences.searchRadius.getD 0
        match env.getOrCreateProfile userId with
        | Except.error _ =>
            ({ success := false, message := none,
               error := some "Failed to complete onboarding" },
             [WriteEvent.ensureProfile userId])
        | Except.ok userProfileId =>
            match env.patchCommit with
            | Except.error _ =>
                ({ success := false, message := none,
                   error := some "Failed to complete onboarding" },
                 [WriteEvent.ensureProfile userId])
            | Except.ok _ =>
                let patched := WriteEvent.patchProfile userProfileId lat lng
                  address searchRadius
                match env.clerkUpdate with
                | Except.error _ =>
                    ({ success := false, message := none,
                       error := some "Failed to complete onboarding" },
                     [WriteEvent.ensureProfile userId, patched])
                | Except.ok _ =>
                    ({ success := true, message := some "Onboarding completed!",
                       error := none },
                     [WriteEvent.ensureProfile userId, patched,
                      WriteEvent.setOnboarded userId])

/-- Embedding of updateLocationPreferences (source lines 105-156).  Same
shape as completeOnboarding except that the profile is looked up (a read)
instead of created, a missing profile yields
`{success: false, error: "User profile not found"}`, the catch handler
message is "Failed to update preferences", and no Clerk metadata write
happens. -/
def updateLocationPreferences (env : ActionEnv)
    (preferences : ProfilePreferences) : ProfileResult × List WriteEvent :=
  match env.authUserId with
  | Except.error _ =>
      ({ success := false, message := none,
         error := some "Failed to update preferences" }, [])
  | Except.ok none =>
      ({ success := false, message := none, error := some "Unauthorized" }, [])
  | Except.ok (some userId) =>
      if isValidLocation preferences.location = false then
        ({ success := false, message := none,
           error := some "Location is required" }, [])
      else if isValidRadius preferences.searchRadius = false then
        ({ success := false, message := none,
           error := some "Search radius is required" }, [])
      else
        let loc := preferences.location.getD
          { lat := none, lng := none, address := none }
        let lat := loc.lat.getD 0
        let lng := loc.lng.getD 0
        let address := loc.address.getD ""
        let searchRadius := preferences.searchRadius.getD 0
        match env.fetchProfileId userId with
        | Except.error _ =>
            ({ success := false, message := none,
               error := some "Failed to update preferences" }, [])
        | Except.ok none =>
            ({ success := false, message := none,
               error := some "User profile not found" }, [])
        | Except.ok (some profileId) =>
            match env.patchCommit with
            | Except.error _ =>
                ({ success := false, message := none,
                   error := some "Failed to update preferences" }, [])
            | Except.ok _ =>
                ({ success := true, message := some "Preferences updated!",
                   error := none },
                 [WriteEvent.patchProfile profileId lat lng address
                    searchRadius])

/-! ## Security headers (src/next.config.ts) -/

/-- One response header. -/
structure HeaderKV where
  key : String
  value : String
deriving Repr, DecidableEq

/-- One rule of the headers() configuration: a route source pattern and the
headers applied to it. -/
structure HeaderRule where
  source : String
  headers : List HeaderKV
deriving Repr, DecidableEq

/-- The Permissions-Policy directives joined with ", " in the source
(next.config.ts lines 26-43). -/
def permissionsPolicyItems : List String :=
  ["geolocation=()",
   "microphone=()",
   "camera=()",
   "autoplay=()",
   "payment=()",
   "publickey-credentials-get=()",
   "screen-wake-lock=()",
   "usb=()",
   "web-share=()",
   "fullscreen=(self)",
   "picture-in-picture=(self)",
   "display-capture=()",
   "encrypted-media=()",
   "gyroscope=()",
   "magnetometer=()",
   "midi=()"]

/-- Embedding of the array returned by headers() in next.config.ts
(lines 13-48). -/
def configHeaders : List HeaderRule :=
  [{ source := "/:path*",
     headers :=
       [{ key := "X-Content-Type-Options", value := "nosniff" },
        { key := "X-Frame-Options", value := "SAMEORIGIN" },
        { key := "Referrer-Policy", value := "strict-origin-when-cross-origin" },
        { key := "Cross-Origin-Opener-Policy", value := "same-origin" },
        { key := "Cross-Origin-Resource-Policy", value := "same-origin" },
        { key := "X-Permitted-Cross-Domain-Policies", value := "none" },
        { key := "Permissions-Policy",
          value := String.intercalate ", " permissionsPolicyItems }] }]

/-- Value of a header key under the single "/:path*" rule. -/
def headerValue (key : String) : Option String :=
  match configHeaders with
  | [] => none
  | rule :: _ =>
      match rule.headers.find? (fun h => h.key == key) with
      | some h => some h.value
      | none => none

/-! ## Concrete inputs used by witnesses -/

/-- An environment in which every external operation succeeds and the user
is authenticated. -/
def envAuthed : ActionEnv :=
  { authUserId := Except.ok (some "user1")
    getOrCreateProfile := fun _ => Except.ok "prof1"
    fetchProfileId := fun _ => Except.ok (some "prof1")
    patchCommit := Except.ok ()
    clerkUpdate := Except.ok () }

/-- An environment in which auth() yields no user. -/
def envAuthNone : ActionEnv :=
  { envAuthed with authUserId := Except.ok none }

/-- An environment in which auth() throws. -/
def envAuthThrows : ActionEnv :=
  { envAuthed with authUserId := Except.error () }

/-- An environment in which the patch commit throws. -/
def envPatchThrows : ActionEnv :=
  { envAuthed with patchCommit := Except.error () }

/-- An environment in which getOrCreateUserProfile throws. -/
def envGetOrCreateThrows : ActionEnv :=
  { envAuthed with getOrCreateProfile := fun _ => Except.error () }

/-- An environment in which the profile-id fetch throws. -/
def envFetchThrows : ActionEnv :=
  { envAuthed with fetchProfileId := fun _ => Except.error () }

/-- An environment in which the Clerk metadata update throws. -/
def envClerkThrows : ActionEnv :=
  { envAuthed with clerkUpdate := Except.error () }

/-- Preferences with no location and no radius. -/
def prefsEmpty : ProfilePreferences :=
  { location := none, searchRadius := none }

/-- Valid preferences with concrete coordinates, address and radius. -/
def prefsValid : ProfilePreferences :=
  { location := some { lat := some 1, lng := some 2, address := some "addr" }
    searchRadius := some 5 }

/-- A session document whose confirmed bookings exceed its capacity. -/
def sessionOverbooked : SessionFromQuery :=
  { id := "s1"
    startTime := some "2026-01-01T10:00:00Z"
    maxCapacity := some 2
    currentBookings := some 5
    activity := none
    venue := none }

/-- An activity whose category matches no relaxation goal category. -/
def activityHiit : Activity :=
  { id := "a1"
    name := "HIIT Blast"
    instructor := none
    duration := none
    tierLevel := none
    category := some { name := "HIIT" }
    hasUpcomingScheduledSession := true }

/-! ## Claims -/

/-- C4: a call to the getUserBookings tool with an absent (empty) clerkId
returns, without querying the store, a response with an explicit
authentication error field, count 0 and an empty bookings list; this holds
for every type filter and every store, and the embedding is a total
function, so no exception is thrown. -/
theorem C4_bookings_auth_error (type : Option BookingsKind)
    (store : BookingsKind → String → List BookingFromQuery) :
    getUserBookings type "" store =
      { response :=
          { error := some "User not authenticated"
            count := 0
            type := none
            bookings := [] }
        fetches := [] } := by
  rfl

/-- C10: the tier clause of the getRecommendations query filter admits an
activity's tier exactly when its rank is at or below the user's tier in the
order basic < performance < champion, and the interpolated tier lists are
exactly those of the source. -/
theorem C10_tier_filter_order :
    (∀ u a : Tier,
      tierFilterAdmits u (some (tierToString a)) = true ↔
        tierRank a ≤ tierRank u) ∧
    tierLevels Tier.champion = ["basic", "performance", "champion"] ∧
    tierLevels Tier.performance = ["basic", "performance"] ∧
    tierLevels Tier.basic = ["basic"] := by
  refine ⟨?_, rfl, rfl, rfl⟩
  intro u a
  cases u <;> cases a <;> decide

/-- C7 counterexample: the X-Frame-Options header applied by the headers()
configuration has the value "SAMEORIGIN", which is not the frame-denying
value "DENY"; same-origin framing remains allowed. -/
theorem C7_frame_options_not_deny :
    headerValue "X-Frame-Options" = some "SAMEORIGIN" ∧
    "SAMEORIGIN" ≠ "DENY" := by
  exact ⟨rfl, by decide⟩

/-- C7 amended: the headers() configuration applies to every route (a single
rule with source "/:path*") a fixed policy that disables content-type
sniffing, restricts framing to the same origin via
X-Frame-Options: SAMEORIGIN, sets the strict-origin-when-cross-origin
referrer policy, and sets a Permissions-Policy denying geolocation,
microphone, camera and payment among other capabilities. -/
theorem C7_security_headers :
    configHeaders.map (fun r => r.source) = ["/:path*"] ∧
    headerValue "X-Content-Type-Options" = some "nosniff" ∧
    headerValue "X-Frame-Options" = some "SAMEORIGIN" ∧
    headerValue "Referrer-Policy" = some "strict-origin-when-cross-origin" ∧
    headerValue "Permissions-Policy" =
      some (String.intercalate ", " permissionsPolicyItems) ∧
    "geolocation=()" ∈ permissionsPolicyItems ∧
    "microphone=()" ∈ permissionsPolicyItems ∧
    "camera=()" ∈ permissionsPolicyItems ∧
    "payment=()" ∈ permissionsPolicyItems := by
  refine ⟨rfl, rfl, rfl, rfl, rfl, ?_, ?_, ?_, ?_⟩ <;> simp [permissionsPolicyItems]

/-- C1 counterexample: the getSubscriptionInfo tool's response returns a
list of 3 tier items but contains no count field at all, so not every
aiTools tool's response includes a count equal to the length of its
returned list. -/
theorem C1_subscription_has_no_count :
    jsonField getSubscriptionInfo "count" = none ∧
    jsonField getSubscriptionInfo "tiers" = some (JsonVal.arr subscriptionTiers) ∧
    subscriptionTiers.length = 3 := by
  exact ⟨rfl, rfl, rfl⟩

/-- C1 amended: every aiTools tool except getSubscriptionInfo returns a
count field equal to the length of the list returned in the same response
(searchClasses, getClassSessions, searchVenues, getCategories,
getRecommendations and getUserBookings, the last in both its error and
success branches); getSubscriptionInfo returns its fixed payload with no
count field. -/
theorem C1_count_equals_length :
    (∀ (category : Option String) (matching : List Activity),
      (searchClasses category matching).count =
        (searchClasses category matching).classes.length) ∧
    (∀ matching : List SessionFromQuery,
      (getClassSessions matching).count =
        (getClassSessions matching).sessions.length) ∧
    (∀ (name city : Option String) (allStore matchingStore : List Venue),
      (searchVenues name city allStore matchingStore).count =
        (searchVenues name city allStore matchingStore).venues.length) ∧
    (∀ store : List Category,
      (getCategories store).count = (getCategories store).categories.length) ∧
    (∀ (g : Option FitnessGoal) (d : Option Int) (t : Option Tier)
        (store : List Activity),
      (getRecommendations g d t store).count =
        (getRecommendations g d t store).recommendations.length) ∧
    (∀ (type : Option BookingsKind) (clerkId : String)
        (store : BookingsKind → String → List BookingFromQuery),
      (getUserBookings type clerkId store).response.count =
        (getUserBookings type clerkId store).response.bookings.length) ∧
    jsonField getSubscriptionInfo "count" = none := by
  refine ⟨?_, ?_, ?_, ?_, ?_, ?_, rfl⟩
  · intro category matching
    rfl
  · intro matching
    simp [getClassSessions]
  · intro name city allStore matchingStore
    unfold searchVenues
    split <;> rfl
  · intro store
    rfl
  · intro g d t store
    simp [getRecommendations, Nat.min_comm]
  · intro type clerkId store
    unfold getUserBookings
    split <;> simp

/-- C6: every list-returning aiTools tool returns a bounded list of at most
20 items for every input and every store response: searchClasses at most
10, getClassSessions at most 10, searchVenues at most 20, getCategories at
most 20, getRecommendations at most 5, getUserBookings at most 20, and the
fixed getSubscriptionInfo tiers list has 3 items. -/
theorem C6_bounded_lists :
    (∀ (category : Option String) (matching : List Activity),
      (searchClasses category matching).classes.length ≤ 10) ∧
    (∀ matching : List SessionFromQuery,
      (getClassSessions matching).sessions.length ≤ 10) ∧
    (∀ (name city : Option String) (allStore matchingStore : List Venue),
      (searchVenues name city allStore matchingStore).venues.length ≤ 20) ∧
    (∀ store : List Category,
      (getCategories store).categories.length ≤ 20) ∧
    (∀ (g : Option FitnessGoal) (d : Option Int) (t : Option Tier)
        (store : List Activity),
      (getRecommendations g d t store).recommendations.length ≤ 5) ∧
    (∀ (type : Option BookingsKind) (clerkId : String)
        (store : BookingsKind → String → List BookingFromQuery),
      (getUserBookings type clerkId store).response.bookings.length ≤ 20) ∧
    subscriptionTiers.length ≤ 20 := by
  have htake : ∀ (α : Type) (n : Nat) (l : List α), (l.take n).length ≤ n := by
    intro α n l
    simp [List.length_take]
  refine ⟨?_, ?_, ?_, ?_, ?_, ?_, by decide⟩
  · intro category matching
    unfold searchClasses
    rcases category with _ | c
    · exact htake _ 10 matching
    · dsimp only
      split
      · exact htake _ 10 matching
      · exact le_trans (List.length_filter_le _ _) (htake _ 10 matching)
  · intro matching
    simp only [getClassSessions, List.length_map]
    exact htake _ 10 matching
  · intro name city allStore matchingStore
    unfold searchVenues
    split
    · exact le_trans (htake _ 20 allStore) (by decide)
    · exact le_trans (htake _ 10 matchingStore) (by decide)
  · intro store
    exact htake _ 20 store
  · intro g d t store
    unfold getRecommendations
    dsimp only
    split
    · split
      · exact htake _ 5 _
      · exact htake _ 5 _
    · exact htake _ 5 _
  · intro type clerkId store
    unfold getUserBookings
    dsimp only
    split
    · decide
    · simp only [List.length_map, aiUserBookingsFetch]
      exact htake _ 20 _

/-- C8: every item of the sessions list returned by getClassSessions has a
non-negative spotsAvailable, computed as max(0, maxCapacity -
currentBookings) of its source session, with null capacity and booking
counts treated as 0; this covers overbooked and null-field sessions. -/
theorem C8_spots_available (matching : List SessionFromQuery)
    (item : SessionItem) (hmem : item ∈ (getClassSessions matching).sessions) :
    0 ≤ item.spotsAvailable ∧
    ∃ s, s ∈ matching ∧ item = shapeSession s ∧
      item.spotsAvailable =
        max 0 (s.maxCapacity.getD 0 - s.currentBookings.getD 0) := by
  simp only [getClassSessions, List.mem_map] at hmem
  obtain ⟨s, hs, heq⟩ := hmem
  have hsm : s ∈ matching := List.take_subset 10 matching hs
  subst heq
  exact ⟨le_max_left 0 _, s, hsm, rfl, rfl⟩

/-- C8 witness: the theorem applied to a concrete store containing a single
overbooked session (capacity 2, 5 confirmed bookings). -/
theorem C8_spots_available_run :
    0 ≤ (shapeSession sessionOverbooked).spotsAvailable :=
  (C8_spots_available [sessionOverbooked] (shapeSession sessionOverbooked)
    (by decide)).1

/-- Unfolding of the recommendations list computed by getRecommendations
when a fitnessGoal is given. -/
theorem getRecommendations_some_goal (g : FitnessGoal) (d : Option Int)
    (t : Option Tier) (store : List Activity) :
    (getRecommendations (some g) d t store).recommendations =
      (if (goalFilter g (recFetched t d store)).length == 0
       then recFetched t d store
       else goalFilter g (recFetched t d store)).take 5 := by
  rfl

/-- C9: with a fitnessGoal specified, if the client-side category filter
matches none of the fetched activities then getRecommendations falls back
to the full unfiltered fetch; and the recommendations list is empty exactly
when the query fetch itself returned no activities. -/
theorem C9_goal_filter_fallback (g : FitnessGoal) (d : Option Int)
    (t : Option Tier) (store : List Activity) :
    (goalFilter g (recFetched t d store) = [] →
      (getRecommendations (some g) d t store).recommendations =
        (recFetched t d store).take 5) ∧
    ((getRecommendations (some g) d t store).recommendations = [] ↔
      recFetched t d store = []) := by
  constructor
  · intro hempty
    rw [getRecommendations_some_goal, hempty]
    simp
  · rw [getRecommendations_some_goal]
    constructor
    · intro h
      by_cases hc : (goalFilter g (recFetched t d store)).length == 0
      · rw [if_pos hc] at h
        rcases List.take_eq_nil_iff.mp h with h5 | h0
        · omega
        · exact h0
      · rw [if_neg hc] at h
        rcases List.take_eq_nil_iff.mp h with h5 | h0
        · omega
        · rw [h0] at hc
          simp at hc
    · intro h
      rw [h]
      simp [goalFilter]

/-- C9 witness: the theorem applied to a concrete store whose only activity
(category HIIT, upcoming session available) matches none of the relaxation
goal categories; the tool still recommends it via the fallback. -/
theorem C9_goal_filter_fallback_run :
    (getRecommendations (some FitnessGoal.relaxation) none none
        [activityHiit]).recommendations =
      (recFetched none none [activityHiit]).take 5 ∧
    ((getRecommendations (some FitnessGoal.relaxation) none none
        [activityHiit]).recommendations = [] ↔
      recFetched none none [activityHiit] = []) :=
  ⟨(C9_goal_filter_fallback FitnessGoal.relaxation none none [activityHiit]).1
      (by decide),
   (C9_goal_filter_fallback FitnessGoal.relaxation none none [activityHiit]).2⟩

/-- C2: an authenticated call to completeOnboarding or
updateLocationPreferences whose preferences fail location validation (lat
and lng numbers plus a non-blank address) or radius validation (a finite
number at least 1) returns success = false with one of the two validation
error messages and performs no external write. -/
theorem C2_invalid_prefs_no_write (env : ActionEnv)
    (prefs : ProfilePreferences) (uid : String)
    (hauth : env.authUserId = Except.ok (some uid))
    (hbad : isValidLocation prefs.location = false ∨
      isValidRadius prefs.searchRadius = false) :
    ((completeOnboarding env prefs).1.success = false ∧
      ((completeOnboarding env prefs).1.error = some "Location is required" ∨
       (completeOnboarding env prefs).1.error =
         some "Search radius is required") ∧
      (completeOnboarding env prefs).2 = []) ∧
    ((updateLocationPreferences env prefs).1.success = false ∧
      ((updateLocationPreferences env prefs).1.error =
         some "Location is required" ∨
       (updateLocationPreferences env prefs).1.error =
         some "Search radius is required") ∧
      (updateLocationPreferences env prefs).2 = []) := by
  cases hl : isValidLocation prefs.location with
  | false =>
      constructor <;>
        simp [completeOnboarding, updateLocationPreferences, hauth, hl]
  | true =>
      rcases hbad with h | h
      · rw [hl] at h
        exact absurd h (by simp)
      · constructor <;>
          simp [completeOnboarding, updateLocationPreferences, hauth, hl, h]

/-- C2 witness: the theorem applied to the all-operations-succeed
authenticated environment and preferences missing both location and
radius. -/
theorem C2_invalid_prefs_no_write_run :
    (completeOnboarding envAuthed prefsEmpty).1.success = false ∧
    (completeOnboarding envAuthed prefsEmpty).2 = [] ∧
    (updateLocationPreferences envAuthed prefsEmpty).1.success = false ∧
    (updateLocationPreferences envAuthed prefsEmpty).2 = [] := by
  have h := C2_invalid_prefs_no_write envAuthed prefsEmpty "user1" rfl
    (Or.inl rfl)
  exact ⟨h.1.1, h.1.2.2, h.2.1, h.2.2.2⟩

/-- C3: an authenticated call to completeOnboarding or
updateLocationPreferences with a valid location (numeric lat and lng, a
non-blank address) and a valid radius writes a preference record carrying
exactly the submitted lat, lng, address and searchRadius values: in
completeOnboarding the patch write appears in the trace whenever the
profile lookup and the commit succeed (whatever the later Clerk update
does), and in updateLocationPreferences the trace is exactly that single
patch write. -/
theorem C3_exact_values_written (env : ActionEnv) (prefs : ProfilePreferences)
    (uid pid : String) (lat lng radius : Rat) (address : String)
    (hloc : prefs.location =
      some { lat := some lat, lng := some lng, address := some address })
    (hrad : prefs.searchRadius = some radius)
    (haddr : (strTrim address).length > 0)
    (hge : 1 ≤ radius)
    (hauth : env.authUserId = Except.ok (some uid)) :
    (env.getOrCreateProfile uid = Except.ok pid →
      env.patchCommit = Except.ok () →
      WriteEvent.patchProfile pid lat lng address radius ∈
        (completeOnboarding env prefs).2) ∧
    (env.fetchProfileId uid = Except.ok (some pid) →
      env.patchCommit = Except.ok () →
      (updateLocationPreferences env prefs).2 =
        [WriteEvent.patchProfile pid lat lng address radius]) := by
  have hval : isValidLocation prefs.location = true := by
    rw [hloc]
    simp [isValidLocation]
    exact haddr
  have hvalr : isValidRadius prefs.searchRadius = true := by
    rw [hrad]
    simp [isValidRadius]
    exact hge
  rw [hloc] at hval
  rw [hrad] at hvalr
  constructor
  · intro hget hpatch
    simp only [completeOnboarding, hauth, hloc, hrad, hget, hpatch]
    cases env.clerkUpdate <;> simp [hval, hvalr]
  · intro hfetch hpatch
    simp only [updateLocationPreferences, hauth, hloc, hrad, hfetch, hpatch]
    simp [hval, hvalr]

/-- C3 witness: the theorem applied to the all-operations-succeed
environment and concrete valid preferences (lat 1, lng 2, address "addr",
radius 5). -/
theorem C3_exact_values_written_run :
    WriteEvent.patchProfile "prof1" 1 2 "addr" 5 ∈
      (completeOnboarding envAuthed prefsValid).2 ∧
    (updateLocationPreferences envAuthed prefsValid).2 =
      [WriteEvent.patchProfile "prof1" 1 2 "addr" 5] := by
  have h := C3_exact_values_written envAuthed prefsValid "user1" "prof1"
    1 2 5 "addr" rfl rfl (by decide) (by norm_num) rfl
  exact ⟨h.1 rfl rfl, h.2 rfl rfl⟩

/-- C5: completeOnboarding and updateLocationPreferences never propagate an
exception: every result is either a success with no error or a failure
carrying an error string; each fallible operation an action invokes --
auth(), getOrCreateUserProfile, the profile-id fetch, the patch commit and
the Clerk metadata update -- leaves, when it throws, a caught
{success: false, error: string} result (for a throwing auth() the exact
catch-all result with no write); and an absent authenticated user id
short-circuits with the explicit Unauthorized result before any external
operation, so the write trace is empty. -/
theorem C5_errors_caught :
    (∀ (env : ActionEnv) (prefs : ProfilePreferences),
      ((completeOnboarding env prefs).1.success = true ∧
        (completeOnboarding env prefs).1.error = none) ∨
      ((completeOnboarding env prefs).1.success = false ∧
        ∃ e, (completeOnboarding env prefs).1.error = some e)) ∧
    (∀ (env : ActionEnv) (prefs : ProfilePreferences),
      ((updateLocationPreferences env prefs).1.success = true ∧
        (updateLocationPreferences env prefs).1.error = none) ∨
      ((updateLocationPreferences env prefs).1.success = false ∧
        ∃ e, (updateLocationPreferences env prefs).1.error = some e)) ∧
    (∀ (env : ActionEnv) (prefs : ProfilePreferences),
      env.authUserId = Except.error () →
      completeOnboarding env prefs =
        ({ success := false, message := none,
           error := some "Failed to complete onboarding" }, [])) ∧
    (∀ (env : ActionEnv) (prefs : ProfilePreferences),
      env.authUserId = Except.error () →
      updateLocationPreferences env prefs =
        ({ success := false, message := none,
           error := some "Failed to update preferences" }, [])) ∧
    (∀ (env : ActionEnv) (prefs : ProfilePreferences),
      env.authUserId = Except.ok none →
      completeOnboarding env prefs =
        ({ success := false, message := none,
           error := some "Unauthorized" }, [])) ∧
    (∀ (env : ActionEnv) (prefs : ProfilePreferences),
      env.authUserId = Except.ok none →
      updateLocationPreferences env prefs =
        ({ success := false, message := none,
           error := some "Unauthorized" }, [])) ∧
    (∀ (env : ActionEnv) (prefs : ProfilePreferences) (uid : String),
      env.authUserId = Except.ok (some uid) →
      env.getOrCreateProfile uid = Except.error () →
      (completeOnboarding env prefs).1.success = false ∧
        ∃ e, (completeOnboarding env prefs).1.error = some e) ∧
    (∀ (env : ActionEnv) (prefs : ProfilePreferences) (uid : String),
      env.authUserId = Except.ok (some uid) →
      env.fetchProfileId uid = Except.error () →
      (updateLocationPreferences env prefs).1.success = false ∧
        ∃ e, (updateLocationPreferences env prefs).1.error = some e) ∧
    (∀ (env : ActionEnv) (prefs : ProfilePreferences),
      env.patchCommit = Except.error () →
      (completeOnboarding env prefs).1.success = false ∧
        ∃ e, (completeOnboarding env prefs).1.error = some e) ∧
    (∀ (env : ActionEnv) (prefs : ProfilePreferences),
      env.patchCommit = Except.error () →
      (updateLocationPreferences env prefs).1.success = false ∧
        ∃ e, (updateLocationPreferences env prefs).1.error = some e) ∧
    (∀ (env : ActionEnv) (prefs : ProfilePreferences),
      env.clerkUpdate = Except.error () →
      (completeOnboarding env prefs).1.success = false ∧
        ∃ e, (completeOnboarding env prefs).1.error = some e) := by
  refine ⟨?_, ?_, ?_, ?_, ?_, ?_, ?_, ?_, ?_, ?_, ?_⟩
  · intro env prefs
    unfold completeOnboarding
    (repeat' split) <;> norm_num
  · intro env prefs
    unfold updateLocationPreferences
    (repeat' split) <;> norm_num
  · intro env prefs h
    simp [completeOnboarding, h]
  · intro env prefs h
    simp [updateLocationPreferences, h]
  · intro env prefs h
    simp [completeOnboarding, h]
  · intro env prefs h
    simp [updateLocationPreferences, h]
  · intro env prefs uid hauth hop
    unfold completeOnboarding
    (repeat' split) <;> simp_all
  · intro env prefs uid hauth hop
    unfold updateLocationPreferences
    (repeat' split) <;> simp_all
  · intro env prefs h
    unfold completeOnboarding
    (repeat' split) <;> simp_all
  · intro env prefs h
    unfold updateLocationPreferences
    (repeat' split) <;> simp_all
  · intro env prefs h
    unfold completeOnboarding
    (repeat' split) <;> simp_all

/-- C5 witness: the theorem's catch, unauthorized and per-operation failure
clauses applied to concrete environments in which auth() throws, auth()
yields no user, getOrCreateUserProfile throws, the profile-id fetch throws,
the patch commit throws, and the Clerk metadata update throws. -/
theorem C5_errors_caught_run :
    completeOnboarding envAuthThrows prefsValid =
      ({ success := false, message := none,
         error := some "Failed to complete onboarding" }, []) ∧
    updateLocationPreferences envAuthThrows prefsValid =
      ({ success := false, message := none,
         error := some "Failed to update preferences" }, []) ∧
    completeOnboarding envAuthNone prefsValid =
      ({ success := false, message := none,
         error := some "Unauthorized" }, []) ∧
    updateLocationPreferences envAuthNone prefsValid =
      ({ success := false, message := none,
         error := some "Unauthorized" }, []) ∧
    (completeOnboarding envGetOrCreateThrows prefsValid).1.success = false ∧
    (updateLocationPreferences envFetchThrows prefsValid).1.success = false ∧
    (completeOnboarding envPatchThrows prefsValid).1.success = false ∧
    (updateLocationPreferences envPatchThrows prefsValid).1.success = false ∧
    (completeOnboarding envClerkThrows prefsValid).1.success = false := by
  obtain ⟨-, -, h3, h4, h5, h6, h7, h8, h9, h10, h11⟩ := C5_errors_caught
  exact ⟨h3 envAuthThrows prefsValid rfl,
    h4 envAuthThrows prefsValid rfl,
    h5 envAuthNone prefsValid rfl,
    h6 envAuthNone prefsValid rfl,
    (h7 envGetOrCreateThrows prefsValid "user1" rfl rfl).1,
    (h8 envFetchThrows prefsValid "user1" rfl rfl).1,
    (h9 envPatchThrows prefsValid rfl).1,
    (h10 envPatchThrows prefsValid rfl).1,
    (h11 envClerkThrows prefsValid rfl).1⟩
